import Mathlib

/-!
Verification of the Eight Sleep MCP server (an HTTP client with token-based
authentication, a retry-on-401 interceptor, and a vendor API facade) against
its natural-language specification.

The development shallowly embeds the TypeScript sources:
  * src/config.ts            - the credential store (AuthConfig)
  * src/eight_sleep_client.ts - the authenticated HTTP client and vendor facade
  * src/functions.ts          - the tool-level wrapper (setTemperature validation)

Network traffic is modelled by explicit traces: a resource request consumes a
list of HTTP responses (one per attempt), and each invocation of authenticate
consumes one result from a stream of auth-endpoint outcomes.  JS string and
number truthiness tests from the source are modelled explicitly (empty string
and zero are falsy).  The JS Date engine (used by getSleepData to compute the
default end date) is modelled by proleptic-Gregorian epoch-day conversions as
specified by ECMA-262; toEpochDays and fromEpochDays below follow the standard
civil-calendar / epoch-day algorithms.
-/

/-! ## Calendar model (the JS Date engine used by getSleepData) -/

/-- Gregorian leap-year test, as in ECMA-262 day-number arithmetic. -/
def isLeap (y : Nat) : Bool :=
  (y % 4 == 0 && y % 100 != 0) || (y % 400 == 0)

/-- Number of days in month m of year y (months are 1-based). -/
def daysInMonth (y m : Nat) : Nat :=
  if m = 2 then (if isLeap y then 29 else 28)
  else if m = 4 ∨ m = 6 ∨ m = 9 ∨ m = 11 then 30
  else 31

/-- A calendar triple (y, m, d) denotes a real date of the proleptic Gregorian
calendar.  Year 0 is excluded: the source only ever feeds four-digit ISO dates
(YYYY-MM-DD) to the JS Date constructor. -/
def validDate (y m d : Nat) : Prop :=
  1 ≤ y ∧ 1 ≤ m ∧ m ≤ 12 ∧ 1 ≤ d ∧ d ≤ daysInMonth y m

instance (y m d : Nat) : Decidable (validDate y m d) := by
  unfold validDate
  infer_instance

/-- Days elapsed since 0000-03-01 for a calendar date, the standard
days-from-civil computation performed by the JS Date engine when the source
evaluates new Date(startDate).getTime(). -/
def toEpochDays (y m d : Nat) : Nat :=
  let yp := if m ≤ 2 then y - 1 else y
  let era := yp / 400
  let yoe := yp % 400
  let mp := (m + 9) % 12
  let doy := (153 * mp + 2) / 5 + (d - 1)
  let doe := yoe * 365 + yoe / 4 - yoe / 100 + doy
  era * 146097 + doe

/-- Calendar date for a count of days since 0000-03-01, the standard
civil-from-days computation performed by the JS Date engine when the source
evaluates toISOString on the shifted timestamp. -/
def fromEpochDays (z : Nat) : Nat × Nat × Nat :=
  let era := z / 146097
  let doe := z % 146097
  let yoe := (doe - doe / 1460 + doe / 36524 - doe / 146096) / 365
  let y := yoe + era * 400
  let doy := doe - (365 * yoe + yoe / 4 - yoe / 100)
  let mp := (5 * doy + 2) / 153
  let d := doy - (153 * mp + 2) / 5 + 1
  let m := if mp < 10 then mp + 3 else mp - 9
  (if m ≤ 2 then y + 1 else y, m, d)

/-- Intermediate decoding step shared by the epoch-day round-trip proofs. -/
def decodeDoy (era yoe doy : Nat) : Nat × Nat × Nat :=
  let y := yoe + era * 400
  let mp := (5 * doy + 2) / 153
  let m := if mp < 10 then mp + 3 else mp - 9
  (if m ≤ 2 then y + 1 else y, m, doy - (153 * mp + 2) / 5 + 1)

/-- Modelled from the spec: the phrase startDate plus one day denotes the
calendar successor of a date, with day, month and year rollover. -/
def nextDay (y m d : Nat) : Nat × Nat × Nat :=
  if d < daysInMonth y m then (y, m, d + 1)
  else if m < 12 then (y, m + 1, 1)
  else (y + 1, 1, 1)

/-- Left-pad the decimal representation of n with zeros to width w. -/
def padNum (w n : Nat) : String :=
  let s := toString n
  String.mk (List.replicate (w - s.length) '0') ++ s

/-- Render a calendar triple as an ISO YYYY-MM-DD string, the date part of the
JS toISOString output for dates of years 1 to 9999. -/
def fmtDate (t : Nat × Nat × Nat) : String :=
  padNum 4 t.1 ++ "-" ++ padNum 2 t.2.1 ++ "-" ++ padNum 2 t.2.2

/-- Milliseconds per day, written 24 * 60 * 60 * 1000 in the source. -/
def msPerDay : Nat := 24 * 60 * 60 * 1000

/-! ## Credential store and error taxonomy -/

/-- Credentials from src/config.ts (config.auth): each field defaults to the
empty string when the environment variable is absent. -/
structure AuthConfig where
  email : String
  password : String
  clientId : String
  clientSecret : String
  userId : String
deriving DecidableEq

/-- Error taxonomy of spec section 7.  The source throws plain Error values
whose messages distinguish the classes; the constructors here name the classes
and carry the message material the source interpolates. -/
inductive ClientError where
  | configurationError
  | authenticationError (msg : String)
  | apiError (status : Nat) (msg : String)
  | validationError
  | notFoundError (msg : String)
  | notAuthenticated
deriving DecidableEq

/-! ## Authenticated HTTP client (src/eight_sleep_client.ts 56-140) -/

/-- Outcome of one POST to the auth token endpoint.  ok carries the
access_token and the userId field of the vendor response; httpErr is the
AxiosError path (non-2xx status or network failure) with the message the
source interpolates. -/
inductive AuthResult where
  | ok (accessToken : String) (respUserId : String)
  | httpErr (msg : String)
deriving DecidableEq

/-- The state written by a successful authenticate call: this.token and
this.userId. -/
structure AuthSuccess where
  token : String
  userId : String
deriving DecidableEq

/-- Model of EightSleepClient.authenticate (src/eight_sleep_client.ts 112-140).
Returns the outcome together with the number of POSTs issued to the auth
endpoint (0 when the credential check fails before the request).  An empty
access_token in the response is falsy in JS, so it takes the invalid-response
path, which the catch block rewraps into the generic failure message.  On
success this.userId is set from config.auth.userId; the userId field of the
response is ignored. -/
def authenticate (cfg : AuthConfig) (r : AuthResult) : Except ClientError AuthSuccess × Nat :=
  if cfg.email = "" ∨ cfg.password = "" then
    (.error .configurationError, 0)
  else
    match r with
    | .ok tok _ =>
        if tok = "" then
          (.error (.authenticationError "Failed to authenticate with Eight Sleep"), 1)
        else
          (.ok ⟨tok, cfg.userId⟩, 1)
    | .httpErr m =>
        (.error (.authenticationError ("Failed to authenticate with Eight Sleep: " ++ m)), 1)

/-- One response of the resource server to one dispatched HTTP attempt. -/
inductive HttpResponse (α : Type) where
  | ok (data : α)
  | err (status : Nat) (msg : String)
deriving DecidableEq

/-- What the caller of client.request observes. traceEnded is a model
artifact: the supplied response trace was exhausted before the interceptor
chain finished. -/
inductive ReqOutcome (α : Type) where
  | ok (data : α)
  | err (e : ClientError)
  | traceEnded
deriving DecidableEq

/-- Result of running one resource request through the interceptor chain:
the observed outcome, the finally held token, the number of authenticate
invocations, the number of POSTs to the auth endpoint, the number of HTTP
attempts dispatched on the resource client, and the sequence of assignments
to this.token (none records the null write in the 401 handler). -/
structure RunResult (α : Type) where
  outcome : ReqOutcome α
  token : Option String
  authCalls : Nat
  authNet : Nat
  attempts : Nat
  tokenWrites : List (Option String)
deriving DecidableEq

/-- Model of the response-interceptor loop (src/eight_sleep_client.ts 93-109).
Each list element is the response to one dispatched attempt.  On a 401 the
handler writes null to this.token, invokes authenticate (consuming the next
element of the auth stream), and, when it succeeds, re-enters the client with
this.client.request(config) - which runs the same interceptors again on the
tail of the trace.  When authenticate fails, its error replaces the original
401 rejection.  Any other non-2xx response propagates as the AxiosError the
facade later wraps (apiError). -/
def dispatchLoop {α : Type} (cfg : AuthConfig) (auths : Nat → AuthResult) :
    List (HttpResponse α) → String → Nat → Nat → Nat → List (Option String) → RunResult α
  | [], tok, ac, an, att, tw => ⟨.traceEnded, some tok, ac, an, att, tw⟩
  | .ok d :: _, tok, ac, an, att, tw => ⟨.ok d, some tok, ac, an, att + 1, tw⟩
  | .err s m :: rest, tok, ac, an, att, tw =>
      if s = 401 then
        match authenticate cfg (auths ac) with
        | (.error e, n) => ⟨.err e, none, ac + 1, an + n, att + 1, tw ++ [none]⟩
        | (.ok a, n) =>
            dispatchLoop cfg auths rest a.token (ac + 1) (an + n) (att + 1)
              (tw ++ [none, some a.token])
      else ⟨.err (.apiError s m), some tok, ac, an, att + 1, tw⟩

/-- JS truthiness of the nullable strings this.token and this.userId: falsy
when null or empty. -/
def strFalsy : Option String → Bool
  | none => true
  | some s => s == ""

/-- Model of one call to client.request: the request interceptor
(src/eight_sleep_client.ts 82-90) authenticates lazily when no token is held,
then the attempt is dispatched and handled by the response interceptor loop. -/
def runRequest {α : Type} (cfg : AuthConfig) (auths : Nat → AuthResult)
    (responses : List (HttpResponse α)) (token : Option String) : RunResult α :=
  if strFalsy token then
    match authenticate cfg (auths 0) with
    | (.error e, n) => ⟨.err e, token, 1, n, 0, []⟩
    | (.ok a, n) => dispatchLoop cfg auths responses a.token 1 n 0 [some a.token]
  else
    dispatchLoop cfg auths responses (token.getD "") 0 0 0 []

/-! ## Vendor API facade (src/eight_sleep_client.ts 142-306, src/functions.ts) -/

/-- Outcome of one awaited call on this.client as seen by a facade method:
success with parsed data, an AxiosError carrying the HTTP status and the
resolved vendor message, or a plain application error rethrown unchanged by
the interceptor chain (for example an authentication failure). -/
inductive NetReply (α : Type) where
  | ok (data : α)
  | axiosErr (status : Nat) (msg : String)
  | appErr (e : ClientError)
deriving DecidableEq

/-- Query parameters of the trends endpoint request built by getSleepData.
The source stores them in a Record with string values; the from and to keys
are spelled fromParam and toParam here because from is reserved in Lean. -/
structure TrendsParams where
  tz : String
  fromParam : String
  toParam : String
  includeMain : String
  includeAllSessions : String
  modelVersion : String
deriving DecidableEq

/-- The vendor HTTP requests issued by the facade methods under scrutiny. -/
inductive VendorCall where
  | getTemperature (userId : String)
  | putTemperatureLevel (userId : String) (level : Int)
  | putTemperatureTimeBased (userId : String) (level : Int) (duration : Int)
  | getTrends (userId : String) (params : TrendsParams)
  | getUsersMe
deriving DecidableEq

/-- Vendor hrv sub-object (fields read through optional chaining). -/
structure HrvData where
  score : Option Int
  average : Option Int
  minimum : Option Int
  maximum : Option Int
deriving DecidableEq

/-- Vendor respiratoryRate sub-object. -/
structure RespiratoryRateData where
  score : Option Int
deriving DecidableEq

/-- Vendor sleepQualityScore sub-object. -/
structure SleepQualityScore where
  hrv : Option HrvData
  respiratoryRate : Option RespiratoryRateData
deriving DecidableEq

/-- One stage segment of a vendor day record: a stage name and a duration. -/
structure StageSegment where
  stage : String
  duration : Int
deriving DecidableEq

/-- Vendor per-day aggregate returned in the days list of the trends
endpoint; every field the source reads is optional. -/
structure DayRecord where
  score : Option Int
  sleepQualityScore : Option SleepQualityScore
  tnt : Option Int
  stages : Option (List StageSegment)
deriving DecidableEq

/-- Body of a trends endpoint response; the days field may be absent. -/
structure TrendsResp where
  days : Option (List DayRecord)
deriving DecidableEq

/-- Model of getSleepData (src/eight_sleep_client.ts 209-229).  The start
date is an already-parsed calendar triple (the source receives the ISO string
and parses it with the JS Date engine).  When endDate is absent or empty
(JS falsiness of the optional parameter), the to parameter is computed by
adding one day in epoch milliseconds and taking the date part of the ISO
rendering.  Returns the result together with the issued vendor call. -/
def getSleepData (userId : String) (startDate : Nat × Nat × Nat) (endDate : Option String)
    (reply : NetReply TrendsResp) : Except ClientError (List DayRecord) × List VendorCall :=
  let dflt := fmtDate (fromEpochDays
      ((toEpochDays startDate.1 startDate.2.1 startDate.2.2 * msPerDay + msPerDay) / msPerDay))
  let toStr :=
    match endDate with
    | some e => if e = "" then dflt else e
    | none => dflt
  let params : TrendsParams :=
    { tz := "America/Los_Angeles", fromParam := fmtDate startDate, toParam := toStr,
      includeMain := "false", includeAllSessions := "true", modelVersion := "v2" }
  let call := VendorCall.getTrends userId params
  match reply with
  | .ok data => (.ok (data.days.getD []), [call])
  | .axiosErr s m => (.error (.apiError s ("Failed to get sleep data: " ++ m)), [call])
  | .appErr e => (.error e, [call])

/-- Simplified sleep score shape returned by getSleepScore. -/
structure SleepScoreResult where
  total : Option Int
  hrv : Option Int
  breathing : Option Int
  tossAndTurns : Option Int
deriving DecidableEq

/-- Model of getSleepScore (src/eight_sleep_client.ts 231-251): one
getSleepData call for the single date, a NotFoundError when the returned list
is empty, otherwise field extraction from the first record with optional
chaining. -/
def getSleepScore (userId : String) (date : Nat × Nat × Nat) (reply : NetReply TrendsResp) :
    Except ClientError SleepScoreResult × List VendorCall :=
  match getSleepData userId date none reply with
  | (.error e, calls) => (.error e, calls)
  | (.ok sleepData, calls) =>
      match sleepData with
      | [] => (.error (.notFoundError ("No sleep data found for date " ++ fmtDate date)), calls)
      | dayData :: _ =>
          (.ok { total := dayData.score,
                 hrv := (dayData.sleepQualityScore.bind (fun q => q.hrv)).bind
                   (fun h => h.score),
                 breathing := (dayData.sleepQualityScore.bind (fun q => q.respiratoryRate)).bind
                   (fun r => r.score),
                 tossAndTurns := dayData.tnt },
           calls)

/-- JS toLowerCase on the ASCII stage names (character-wise lowering). -/
def lowerString (s : String) : String :=
  String.mk (s.data.map Char.toLower)

/-- JS object-key assignment on an association list: an existing key keeps
its position and gets the new value; a new key is appended. -/
def setKey : List (String × Int) → String → Int → List (String × Int)
  | [], k, v => [(k, v)]
  | (k2, v2) :: rest, k, v =>
      if k2 = k then (k2, v) :: rest else (k2, v2) :: setKey rest k v

/-- The stage-map loop of getSleepStages (src/eight_sleep_client.ts 263-268):
a segment contributes only when both stage and duration are truthy (nonempty
name, nonzero duration); the key is the lower-cased stage name. -/
def buildStageMap (stages : List StageSegment) : List (String × Int) :=
  stages.foldl
    (fun acc sg =>
      if sg.stage ≠ "" ∧ sg.duration ≠ 0 then setKey acc (lowerString sg.stage) sg.duration
      else acc)
    []

/-- Model of getSleepStages (src/eight_sleep_client.ts 253-277). -/
def getSleepStages (userId : String) (date : Nat × Nat × Nat) (reply : NetReply TrendsResp) :
    Except ClientError (List (String × Int)) × List VendorCall :=
  match getSleepData userId date none reply with
  | (.error e, calls) => (.error e, calls)
  | (.ok sleepData, calls) =>
      match sleepData with
      | [] => (.error (.notFoundError ("No sleep data found for date " ++ fmtDate date)), calls)
      | dayData :: _ => (.ok (buildStageMap (dayData.stages.getD [])), calls)

/-- Model of getHrv (src/eight_sleep_client.ts 291-306). -/
def getHrv (userId : String) (date : Nat × Nat × Nat) (reply : NetReply TrendsResp) :
    Except ClientError (Option Int) × List VendorCall :=
  match getSleepData userId date none reply with
  | (.error e, calls) => (.error e, calls)
  | (.ok sleepData, calls) =>
      match sleepData with
      | [] => (.error (.notFoundError ("No sleep data found for date " ++ fmtDate date)), calls)
      | dayData :: _ =>
          (.ok ((dayData.sleepQualityScore.bind (fun q => q.hrv)).bind (fun h => h.score)),
           calls)

/-- Body of the temperature endpoint response: currentState.level and
currentLevel, the two fields the source reads. -/
structure TempResp where
  currentStateLevel : Int
  currentLevel : Int
deriving DecidableEq

/-- Simplified temperature shape returned by getCurrentTempData. -/
structure TempData where
  current : Int
  target : Int
  heating : Bool
  cooling : Bool
deriving DecidableEq

/-- Model of getCurrentTempData (src/eight_sleep_client.ts 160-181). -/
def getCurrentTempData (userId : String) (reply : NetReply TempResp) :
    Except ClientError TempData × List VendorCall :=
  let call := VendorCall.getTemperature userId
  match reply with
  | .ok data =>
      (.ok { current := data.currentStateLevel, target := data.currentLevel,
             heating := decide (data.currentLevel > 0),
             cooling := decide (data.currentLevel < 0) },
       [call])
  | .axiosErr s m => (.error (.apiError s ("Failed to get temperature data: " ++ m)), [call])
  | .appErr e => (.error e, [call])

/-- Model of setTempLevel (src/eight_sleep_client.ts 183-207): a PUT setting
currentLevel, then - only when duration > 0 - a second PUT with the timeBased
override.  r1 and r2 are the outcomes of the two awaits; the issued-call list
records which PUTs were actually reached. -/
def setTempLevel (userId : String) (level duration : Int) (r1 r2 : NetReply Unit) :
    Except ClientError String × List VendorCall :=
  let c1 := VendorCall.putTemperatureLevel userId level
  match r1 with
  | .axiosErr s m => (.error (.apiError s ("Failed to set temperature: " ++ m)), [c1])
  | .appErr e => (.error e, [c1])
  | .ok _ =>
      if 0 < duration then
        let c2 := VendorCall.putTemperatureTimeBased userId level duration
        match r2 with
        | .axiosErr s m => (.error (.apiError s ("Failed to set temperature: " ++ m)), [c1, c2])
        | .appErr e => (.error e, [c1, c2])
        | .ok _ => (.ok "Temperature updated successfully", [c1, c2])
      else
        (.ok "Temperature updated successfully", [c1])

/-- Model of EightSleepFunctions.setTemperature (src/functions.ts): the
caller-level range check precedes any client call. -/
def setTemperature (userId : String) (level duration : Int) (r1 r2 : NetReply Unit) :
    Except ClientError String × List VendorCall :=
  if level < -100 ∨ level > 100 then
    (.error .validationError, [])
  else
    setTempLevel userId level duration r1 r2

/-- The mutable fields of EightSleepClient read by getUsers. -/
structure ClientState where
  token : Option String
  userId : Option String
deriving DecidableEq

/-- Model of getUsers (src/eight_sleep_client.ts 142-158): when this.userId is
falsy, authenticate is awaited (consuming authR); when it is still falsy the
method throws Not authenticated before issuing the /users/me request;
otherwise the request is issued and the data is keyed by this.userId. -/
def getUsers {α : Type} (cfg : AuthConfig) (authR : AuthResult) (st : ClientState)
    (reply : NetReply α) : Except ClientError (String × α) × List VendorCall × ClientState :=
  let step1 : Except ClientError ClientState :=
    if strFalsy st.userId then
      match (authenticate cfg authR).1 with
      | .error e => .error e
      | .ok a => .ok ⟨some a.token, some a.userId⟩
    else .ok st
  match step1 with
  | .error e => (.error e, [], st)
  | .ok st2 =>
      if strFalsy st2.userId then
        (.error .notAuthenticated, [], st2)
      else
        match reply with
        | .ok data => (.ok (st2.userId.getD "", data), [.getUsersMe], st2)
        | .axiosErr s m =>
            (.error (.apiError s ("Failed to get users: " ++ m)), [.getUsersMe], st2)
        | .appErr e => (.error e, [.getUsersMe], st2)

/-! ## Calendar lemmas: the epoch-day round trip and the successor day -/

theorem isLeap_iff (y : Nat) : isLeap y = true ↔ ((y % 4 = 0 ∧ y % 100 ≠ 0) ∨ y % 400 = 0) := by
  simp [isLeap, Bool.or_eq_true, Bool.and_eq_true, beq_iff_eq, bne_iff_ne]

theorem yoe_rec (yoe doy doe : Nat) (hy : yoe ≤ 399)
    (hdoe : doe = yoe * 365 + yoe / 4 - yoe / 100 + doy)
    (hdoy : doy ≤ 364 ∨ (doy = 365 ∧ ((yoe + 1) % 4 = 0 ∧ (yoe + 1) % 100 ≠ 0 ∨ (yoe + 1) % 400 = 0))) :
    (doe - doe / 1460 + doe / 36524 - doe / 146096) / 365 = yoe := by
  by_cases hA : 365 * (yoe % 100) + (yoe % 100) / 4 + doy ≤ 36523
  · have h365s : doe / 36524 = yoe / 100 := by omega
    have h146 : doe / 146096 = 0 := by omega
    by_cases hB : 365 * (yoe % 4) + yoe / 4 - yoe / 100 + doy ≤ 1459
    · have h1460 : doe / 1460 = yoe / 4 := by omega
      omega
    · have h1460 : doe / 1460 = yoe / 4 + 1 := by omega
      omega
  · have hr : yoe = 399 ∧ doy = 365 := by omega
    have hdoe2 : doe = 146096 := by omega
    subst hdoe2
    omega

theorem fromEpochDays_struct (era yoe doy doe z : Nat)
    (hz : z = era * 146097 + doe)
    (hdoe : doe = yoe * 365 + yoe / 4 - yoe / 100 + doy)
    (hyoe : yoe ≤ 399)
    (hdoy : doy ≤ 364 ∨ (doy = 365 ∧ ((yoe + 1) % 4 = 0 ∧ (yoe + 1) % 100 ≠ 0 ∨ (yoe + 1) % 400 = 0))) :
    fromEpochDays z = decodeDoy era yoe doy := by
  have hdoele : doe ≤ 146096 := by omega
  have h1 : z / 146097 = era := by omega
  have h2 : z % 146097 = doe := by omega
  have h3 : (doe - doe / 1460 + doe / 36524 - doe / 146096) / 365 = yoe :=
    yoe_rec yoe doy doe hyoe hdoe hdoy
  have h4 : doe - (365 * yoe + yoe / 4 - yoe / 100) = doy := by omega
  simp only [fromEpochDays, decodeDoy, h1, h2, h3, h4]

set_option linter.unnecessarySeqFocus false in
theorem from_to (y m d : Nat) (h : validDate y m d) :
    fromEpochDays (toEpochDays y m d) = (y, m, d) := by
  obtain ⟨hy1, hm1, hm12, hd1, hdim⟩ := h
  interval_cases m
  · simp only [daysInMonth] at hdim; norm_num at hdim
    refine Eq.trans (fromEpochDays_struct _ _ _ _ _ rfl rfl (by omega) (by norm_num <;> omega)) ?_
    simp only [decodeDoy, Prod.mk.injEq]
    norm_num
    split_ifs <;> omega
  · simp only [daysInMonth] at hdim
    rcases Bool.eq_false_or_eq_true (isLeap y) with hL | hL
    · rw [hL] at hdim; norm_num at hdim
      have hLa := (isLeap_iff y).mp hL
      refine Eq.trans (fromEpochDays_struct _ _ _ _ _ rfl rfl (by omega) (by norm_num <;> omega)) ?_
      simp only [decodeDoy, Prod.mk.injEq]
      norm_num
      split_ifs <;> omega
    · rw [hL] at hdim; norm_num at hdim
      refine Eq.trans (fromEpochDays_struct _ _ _ _ _ rfl rfl (by omega) (by norm_num <;> omega)) ?_
      simp only [decodeDoy, Prod.mk.injEq]
      norm_num
      split_ifs <;> omega
  · simp only [daysInMonth] at hdim; norm_num at hdim
    refine Eq.trans (fromEpochDays_struct _ _ _ _ _ rfl rfl (by omega) (by norm_num <;> omega)) ?_
    simp only [decodeDoy, Prod.mk.injEq]
    norm_num
    split_ifs <;> omega
  · simp only [daysInMonth] at hdim; norm_num at hdim
    refine Eq.trans (fromEpochDays_struct _ _ _ _ _ rfl rfl (by omega) (by norm_num <;> omega)) ?_
    simp only [decodeDoy, Prod.mk.injEq]
    norm_num
    split_ifs <;> omega
  · simp only [daysInMonth] at hdim; norm_num at hdim
    refine Eq.trans (fromEpochDays_struct _ _ _ _ _ rfl rfl (by omega) (by norm_num <;> omega)) ?_
    simp only [decodeDoy, Prod.mk.injEq]
    norm_num
    split_ifs <;> omega
  · simp only [daysInMonth] at hdim; norm_num at hdim
    refine Eq.trans (fromEpochDays_struct _ _ _ _ _ rfl rfl (by omega) (by norm_num <;> omega)) ?_
    simp only [decodeDoy, Prod.mk.injEq]
    norm_num
    split_ifs <;> omega
  · simp only [daysInMonth] at hdim; norm_num at hdim
    refine Eq.trans (fromEpochDays_struct _ _ _ _ _ rfl rfl (by omega) (by norm_num <;> omega)) ?_
    simp only [decodeDoy, Prod.mk.injEq]
    norm_num
    split_ifs <;> omega
  · simp only [daysInMonth] at hdim; norm_num at hdim
    refine Eq.trans (fromEpochDays_struct _ _ _ _ _ rfl rfl (by omega) (by norm_num <;> omega)) ?_
    simp only [decodeDoy, Prod.mk.injEq]
    norm_num
    split_ifs <;> omega
  · simp only [daysInMonth] at hdim; norm_num at hdim
    refine Eq.trans (fromEpochDays_struct _ _ _ _ _ rfl rfl (by omega) (by norm_num <;> omega)) ?_
    simp only [decodeDoy, Prod.mk.injEq]
    norm_num
    split_ifs <;> omega
  · simp only [daysInMonth] at hdim; norm_num at hdim
    refine Eq.trans (fromEpochDays_struct _ _ _ _ _ rfl rfl (by omega) (by norm_num <;> omega)) ?_
    simp only [decodeDoy, Prod.mk.injEq]
    norm_num
    split_ifs <;> omega
  · simp only [daysInMonth] at hdim; norm_num at hdim
    refine Eq.trans (fromEpochDays_struct _ _ _ _ _ rfl rfl (by omega) (by norm_num <;> omega)) ?_
    simp only [decodeDoy, Prod.mk.injEq]
    norm_num
    split_ifs <;> omega
  · simp only [daysInMonth] at hdim; norm_num at hdim
    refine Eq.trans (fromEpochDays_struct _ _ _ _ _ rfl rfl (by omega) (by norm_num <;> omega)) ?_
    simp only [decodeDoy, Prod.mk.injEq]
    norm_num
    split_ifs <;> omega

theorem daysInMonth_pos (y m : Nat) : 1 ≤ daysInMonth y m := by
  unfold daysInMonth
  split_ifs <;> omega

set_option linter.unnecessarySeqFocus false in
theorem next_epoch (y m d : Nat) (h : validDate y m d) :
    fromEpochDays (toEpochDays y m d + 1) = nextDay y m d := by
  obtain ⟨hy1, hm1, hm12, hd1, hdim⟩ := h
  unfold nextDay
  split_ifs with h1 h2
  · have e1 : toEpochDays y m (d + 1) = toEpochDays y m d + 1 := by
      simp only [toEpochDays]
      split_ifs <;> omega
    rw [← e1, from_to y m (d + 1) ⟨hy1, hm1, hm12, by omega, by omega⟩]
  · have hd : d = daysInMonth y m := by omega
    have e2 : toEpochDays y (m + 1) 1 = toEpochDays y m d + 1 := by
      rw [hd] at *
      interval_cases m
      · norm_num [toEpochDays, daysInMonth]; omega
      · rcases Bool.eq_false_or_eq_true (isLeap y) with hL | hL
        · have hLa := (isLeap_iff y).mp hL
          norm_num [toEpochDays, daysInMonth, hL]; omega
        · have hLa : ¬((y % 4 = 0 ∧ y % 100 ≠ 0) ∨ y % 400 = 0) := by
            intro hcon
            have hcc := (isLeap_iff y).mpr hcon
            rw [hL] at hcc
            exact Bool.false_ne_true hcc
          norm_num [toEpochDays, daysInMonth, hL]; omega
      · norm_num [toEpochDays, daysInMonth]; omega
      · norm_num [toEpochDays, daysInMonth]; omega
      · norm_num [toEpochDays, daysInMonth]; omega
      · norm_num [toEpochDays, daysInMonth]; omega
      · norm_num [toEpochDays, daysInMonth]; omega
      · norm_num [toEpochDays, daysInMonth]; omega
      · norm_num [toEpochDays, daysInMonth]; omega
      · norm_num [toEpochDays, daysInMonth]; omega
      · norm_num [toEpochDays, daysInMonth]; omega
    rw [← e2, from_to y (m + 1) 1 ⟨hy1, by omega, by omega, le_refl 1, daysInMonth_pos y (m + 1)⟩]
  · have hm12e : m = 12 := by omega
    subst hm12e
    have hd31 : daysInMonth y 12 = 31 := by norm_num [daysInMonth]
    have hd : d = 31 := by omega
    subst hd
    have e3 : toEpochDays (y + 1) 1 1 = toEpochDays y 12 31 + 1 := by
      norm_num [toEpochDays]
      omega
    rw [← e3, from_to (y + 1) 1 1 ⟨by omega, by omega, by omega, le_refl 1, by norm_num [daysInMonth]⟩]

/-! ## Shared concrete instances for counterexamples and witnesses -/

/-- A fully populated configuration (valid credentials, nonempty user id). -/
def cfgEx : AuthConfig :=
  { email := "user@example.com", password := "pw", clientId := "cid",
    clientSecret := "csec", userId := "u1" }

/-- An auth stream whose every login succeeds with the token tok2. -/
def authsEx : Nat → AuthResult := fun _ => .ok "tok2" "respUser"

/-! ## Claim theorems -/

/-- C1 counterexample.  The claim says that when both the original attempt and
the single retry answer 401, the caller observes AuthenticationError and no
second retry happens.  On the code, the retried request runs through the same
response interceptor, so the second 401 triggers another re-authentication and
another retry: with trace [401, 401, ok 7] and an auth endpoint that always
succeeds, the caller observes the success and three attempts are dispatched,
refuting both halves of the claim at this input. -/
theorem C1_counterexample :
    (runRequest cfgEx authsEx
        [.err 401 "Unauthorized", .err 401 "Unauthorized", .ok (7 : Nat)]
        (some "tok1")).outcome = .ok 7
    ∧ (runRequest cfgEx authsEx
        [.err 401 "Unauthorized", .err 401 "Unauthorized", .ok (7 : Nat)]
        (some "tok1")).attempts = 3
    ∧ (runRequest cfgEx authsEx
        [.err 401 "Unauthorized", .err 401 "Unauthorized", .ok (7 : Nat)]
        (some "tok1")).authCalls = 2 := by
  decide

theorem dispatchLoop_replicate401 (cfg : AuthConfig) (he : cfg.email ≠ "")
    (hp : cfg.password ≠ "") (tok u msg : String) (htok : tok ≠ "") {α : Type} (d : α) :
    ∀ (n : Nat) (t : String) (ac an att : Nat) (tw : List (Option String)),
      dispatchLoop cfg (fun _ => .ok tok u) (List.replicate n (.err 401 msg) ++ [.ok d])
          t ac an att tw =
        ⟨.ok d, some (if n = 0 then t else tok), ac + n, an + n, att + n + 1,
          tw ++ (List.replicate n ([none, some tok] : List (Option String))).flatten⟩ := by
  intro n
  induction n with
  | zero =>
      intro t ac an att tw
      simp [dispatchLoop]
  | succ k ih =>
      intro t ac an att tw
      have hcfg : ¬(cfg.email = "" ∨ cfg.password = "") := by
        simp [he, hp]
      simp only [List.replicate_succ, List.cons_append, dispatchLoop, eq_self_iff_true,
        if_true, authenticate, if_neg hcfg, if_neg htok, List.append_eq]
      rw [ih tok (ac + 1) (an + 1) (att + 1) (tw ++ [none, some tok])]
      simp only [RunResult.mk.injEq, List.flatten_cons, List.append_assoc, ite_self,
        if_neg (Nat.succ_ne_zero k)]
      refine ⟨trivial, trivial, by omega, by omega, by omega, trivial⟩

/-- C1 amended.  On a 401 the client clears the held token, re-authenticates
and retries, but the retry passes through the same interceptor again: there is
no retry bound.  For every n, a request answered by n consecutive 401s and
then a success (with an auth endpoint that always issues a fresh token)
returns the success to the caller after n re-authentications and n + 1
dispatched attempts; an AuthenticationError is observed only when a
re-authentication itself fails. -/
theorem C1_amended_every_401_reauths_and_retries (cfg : AuthConfig)
    (he : cfg.email ≠ "") (hp : cfg.password ≠ "") (tok u msg t0 : String)
    (htok : tok ≠ "") (ht0 : t0 ≠ "") {α : Type} (d : α) (n : Nat) :
    runRequest cfg (fun _ => .ok tok u) (List.replicate n (.err 401 msg) ++ [.ok d])
        (some t0) =
      ⟨.ok d, some (if n = 0 then t0 else tok), n, n, n + 1,
        (List.replicate n ([none, some tok] : List (Option String))).flatten⟩ := by
  have hf : strFalsy (some t0) = false := by simp [strFalsy, ht0]
  simp only [runRequest, hf, Bool.false_eq_true, if_false, Option.getD_some]
  rw [dispatchLoop_replicate401 cfg he hp tok u msg htok d n t0 0 0 0 []]
  simp

/-- C1 amended, witnessed at n = 2: after the 401 on the retry the client
re-authenticates and retries again instead of failing. -/
theorem C1_amended_witness :
    runRequest cfgEx (fun _ => .ok "tok2" "respUser")
        (List.replicate 2 (.err 401 "Unauthorized") ++ [.ok (7 : Nat)]) (some "tok1") =
      ⟨.ok 7, some "tok2", 2, 2, 3,
        (List.replicate 2 ([none, some "tok2"] : List (Option String))).flatten⟩ := by
  exact C1_amended_every_401_reauths_and_retries cfgEx (by decide) (by decide)
    "tok2" "respUser" "Unauthorized" "tok1" (by decide) (by decide) 7 2

/-- C2.  A request whose first attempt answers 401 and whose retry succeeds:
the caller observes the success, authenticate runs exactly once (one POST to
the auth endpoint), two attempts are dispatched, and this.token is written
exactly twice - cleared (null) once and replaced by the fresh token once. -/
theorem C2_single_401_then_success (cfg : AuthConfig) (he : cfg.email ≠ "")
    (hp : cfg.password ≠ "") (auths : Nat → AuthResult) (tok u : String)
    (h0 : auths 0 = .ok tok u) (htok : tok ≠ "") (t0 : String) (ht0 : t0 ≠ "")
    {α : Type} (d : α) (msg : String) :
    runRequest cfg auths [.err 401 msg, .ok d] (some t0) =
      ⟨.ok d, some tok, 1, 1, 2, [none, some tok]⟩ := by
  have hf : strFalsy (some t0) = false := by simp [strFalsy, ht0]
  have hcfg : ¬(cfg.email = "" ∨ cfg.password = "") := by simp [he, hp]
  simp [runRequest, hf, dispatchLoop, authenticate, h0, hcfg, htok]

/-- C2 witness at a concrete trace. -/
theorem C2_witness :
    runRequest cfgEx authsEx [.err 401 "Unauthorized", .ok (5 : Nat)] (some "tok1") =
      ⟨.ok 5, some "tok2", 1, 1, 2, [none, some "tok2"]⟩ :=
  C2_single_401_then_success cfgEx (by decide) (by decide) authsEx "tok2" "respUser"
    rfl (by decide) "tok1" (by decide) 5 "Unauthorized"

/-- C7.  With a missing (empty) email or password, authenticate fails with the
configuration error before issuing any POST to the auth endpoint, both when
called directly and when triggered lazily by a resource request holding no
token; in the lazy case no resource attempt is dispatched either and nothing
is retried (a single authenticate invocation). -/
theorem C7_missing_credentials_configuration_error (cfg : AuthConfig)
    (hmiss : cfg.email = "" ∨ cfg.password = "") :
    (∀ r, authenticate cfg r = (.error .configurationError, 0))
    ∧ ∀ (α : Type) (auths : Nat → AuthResult) (responses : List (HttpResponse α))
        (token : Option String), strFalsy token = true →
        runRequest cfg auths responses token = ⟨.err .configurationError, token, 1, 0, 0, []⟩ := by
  constructor
  · intro r
    simp [authenticate, hmiss]
  · intro α auths responses token hf
    simp [runRequest, hf, authenticate, hmiss]

/-- C7 witness: empty email, direct call and lazy trigger. -/
theorem C7_witness :
    authenticate ⟨"", "pw", "cid", "csec", "u1"⟩ (.ok "tok" "u") =
      (.error .configurationError, 0)
    ∧ runRequest ⟨"", "pw", "cid", "csec", "u1"⟩ authsEx [.ok (3 : Nat)] none =
      ⟨.err .configurationError, none, 1, 0, 0, []⟩ :=
  ⟨(C7_missing_credentials_configuration_error ⟨"", "pw", "cid", "csec", "u1"⟩
      (Or.inl rfl)).1 (.ok "tok" "u"),
   (C7_missing_credentials_configuration_error ⟨"", "pw", "cid", "csec", "u1"⟩
      (Or.inl rfl)).2 Nat authsEx [.ok 3] none rfl⟩

/-- C3.  setTemperature validates the level before any client call: out of
[-100, 100] it fails with the validation error and issues no vendor request;
inside the range (with the first PUT succeeding) it issues the level PUT and,
exactly when duration > 0, also the timeBased PUT; with duration ≤ 0 and both
replies available the result is the success message after the single PUT. -/
theorem C3_setTemperature_validation_and_calls (userId : String) (level duration : Int)
    (r1 r2 : NetReply Unit) :
    ((level < -100 ∨ level > 100) →
        setTemperature userId level duration r1 r2 = (.error .validationError, []))
    ∧ (-100 ≤ level → level ≤ 100 → r1 = .ok () →
        (setTemperature userId level duration r1 r2).2 =
          VendorCall.putTemperatureLevel userId level ::
            (if 0 < duration then [VendorCall.putTemperatureTimeBased userId level duration]
             else []))
    ∧ (-100 ≤ level → level ≤ 100 → r1 = .ok () → duration ≤ 0 →
        setTemperature userId level duration r1 r2 =
          (.ok "Temperature updated successfully",
           [VendorCall.putTemperatureLevel userId level])) := by
  refine ⟨fun h => ?_, fun h1 h2 hr1 => ?_, fun h1 h2 hr1 hd => ?_⟩
  · simp [setTemperature, h]
  · have hno : ¬(level < -100 ∨ level > 100) := by omega
    subst hr1
    by_cases hdur : 0 < duration
    · simp only [setTemperature, if_neg hno, setTempLevel, if_pos hdur]
      cases r2 <;> simp [hdur]
    · simp [setTemperature, hno, setTempLevel, hdur]
  · have hno : ¬(level < -100 ∨ level > 100) := by omega
    have hdur : ¬(0 < duration) := by omega
    subst hr1
    simp [setTemperature, hno, setTempLevel, hdur]

/-- C3 witness: level 50, duration 0 issues only the level PUT and succeeds;
level 150 fails with the validation error and no call. -/
theorem C3_witness :
    setTemperature "u1" 50 0 (.ok ()) (.ok ()) =
      (.ok "Temperature updated successfully", [VendorCall.putTemperatureLevel "u1" 50])
    ∧ setTemperature "u1" 150 0 (.ok ()) (.ok ()) = (.error .validationError, []) :=
  ⟨(C3_setTemperature_validation_and_calls "u1" 50 0 (.ok ()) (.ok ())).2.2
      (by decide) (by decide) rfl (by decide),
   (C3_setTemperature_validation_and_calls "u1" 150 0 (.ok ()) (.ok ())).1
      (by decide)⟩

/-- C4.  When the vendor returns zero day records (days absent or empty),
getSleepData succeeds with the empty list while getSleepScore, getSleepStages
and getHrv each fail with the NotFoundError for the requested date. -/
theorem C4_empty_days_not_found (userId : String) (date : Nat × Nat × Nat)
    (daysOpt : Option (List DayRecord)) (hempty : daysOpt.getD [] = []) :
    (getSleepData userId date none (.ok ⟨daysOpt⟩)).1 = .ok []
    ∧ (getSleepScore userId date (.ok ⟨daysOpt⟩)).1 =
        .error (.notFoundError ("No sleep data found for date " ++ fmtDate date))
    ∧ (getSleepStages userId date (.ok ⟨daysOpt⟩)).1 =
        .error (.notFoundError ("No sleep data found for date " ++ fmtDate date))
    ∧ (getHrv userId date (.ok ⟨daysOpt⟩)).1 =
        .error (.notFoundError ("No sleep data found for date " ++ fmtDate date)) := by
  refine ⟨?_, ?_, ?_, ?_⟩ <;>
    simp [getSleepData, getSleepScore, getSleepStages, getHrv, hempty]

/-- C4 witness: an explicitly empty days list on 2024-03-08. -/
theorem C4_witness :
    (getSleepData "u1" (2024, 3, 8) none (.ok ⟨some []⟩)).1 = .ok []
    ∧ (getSleepScore "u1" (2024, 3, 8) (.ok ⟨some []⟩)).1 =
        .error (.notFoundError ("No sleep data found for date " ++ fmtDate (2024, 3, 8))) :=
  ⟨(C4_empty_days_not_found "u1" (2024, 3, 8) (some []) rfl).1,
   (C4_empty_days_not_found "u1" (2024, 3, 8) (some []) rfl).2.1⟩

theorem lookup_setKey (acc : List (String × Int)) (k2 : String) (v : Int) (k : String)
    (h : k2 ≠ k) : (setKey acc k2 v).lookup k = acc.lookup k := by
  induction acc with
  | nil =>
      have hb : (k == k2) = false := beq_eq_false_iff_ne.mpr (Ne.symm h)
      simp [setKey, List.lookup, hb]
  | cons p rest ih =>
      obtain ⟨k3, v3⟩ := p
      by_cases hk : k3 = k2
      · subst hk
        have : (k == k3) = false := by simp [Ne.symm h]
        simp [setKey, List.lookup, this]
      · simp [setKey, List.lookup, hk, ih]

theorem stageFold_lookup (k : String) :
    ∀ (ss : List StageSegment) (acc : List (String × Int)),
      (∀ sg ∈ ss, lowerString sg.stage ≠ k) →
      (ss.foldl
          (fun acc sg =>
            if sg.stage ≠ "" ∧ sg.duration ≠ 0 then setKey acc (lowerString sg.stage) sg.duration
            else acc)
          acc).lookup k = acc.lookup k := by
  intro ss
  induction ss with
  | nil => intro acc h; rfl
  | cons sg rest ih =>
      intro acc h
      have hsg : lowerString sg.stage ≠ k := h sg (List.mem_cons_self sg rest)
      have hrest : ∀ s ∈ rest, lowerString s.stage ≠ k := fun s hs => h s (List.mem_cons_of_mem _ hs)
      simp only [List.foldl_cons]
      rw [ih _ hrest]
      by_cases hc : sg.stage ≠ "" ∧ sg.duration ≠ 0
      · rw [if_pos hc, lookup_setKey _ _ _ _ hsg]
      · rw [if_neg hc]

/-- C5.  getSleepStages maps the first day record with stage segments
DEEP 120 and LIGHT 240 to the association deep 120, light 240 (keys are the
lower-cased stage names), and in general a stage name never observed in the
segments is absent from the map rather than bound to zero. -/
theorem C5_stage_map_lowercased_observed_only (userId : String) (date : Nat × Nat × Nat) :
    (getSleepStages userId date
        (.ok ⟨some [⟨none, none, none, some [⟨"DEEP", 120⟩, ⟨"LIGHT", 240⟩]⟩]⟩)).1 =
      .ok [("deep", 120), ("light", 240)]
    ∧ ∀ (ss : List StageSegment) (k : String),
        (∀ sg ∈ ss, lowerString sg.stage ≠ k) → (buildStageMap ss).lookup k = none := by
  constructor
  · rfl
  · intro ss k h
    simp only [buildStageMap]
    rw [stageFold_lookup k ss [] h]
    rfl

/-- C5 witness: the concrete mapping, and the absence of a never-observed
stage key (rem) in it. -/
theorem C5_witness :
    (getSleepStages "u1" (2024, 3, 8)
        (.ok ⟨some [⟨none, none, none, some [⟨"DEEP", 120⟩, ⟨"LIGHT", 240⟩]⟩]⟩)).1 =
      .ok [("deep", 120), ("light", 240)]
    ∧ (buildStageMap [⟨"DEEP", 120⟩, ⟨"LIGHT", 240⟩]).lookup "rem" = none :=
  ⟨(C5_stage_map_lowercased_observed_only "u1" (2024, 3, 8)).1,
   (C5_stage_map_lowercased_observed_only "u1" (2024, 3, 8)).2
     [⟨"DEEP", 120⟩, ⟨"LIGHT", 240⟩] "rem" (by decide)⟩

/-- C9.  A stage segment whose duration is 0 (or whose name is empty) fails
the truthiness test in the stage loop and contributes nothing: the vendor
segment REM 0 leaves no rem key, and in general dropping such a segment from
the list leaves the stage map unchanged. -/
theorem C9_falsy_segment_omitted (userId : String) (date : Nat × Nat × Nat) :
    (getSleepStages userId date
        (.ok ⟨some [⟨none, none, none, some [⟨"REM", 0⟩, ⟨"DEEP", 120⟩]⟩]⟩)).1 =
      .ok [("deep", 120)]
    ∧ ∀ (ss1 ss2 : List StageSegment) (sg : StageSegment),
        (sg.stage = "" ∨ sg.duration = 0) →
        buildStageMap (ss1 ++ sg :: ss2) = buildStageMap (ss1 ++ ss2) := by
  constructor
  · rfl
  · intro ss1 ss2 sg h
    simp only [buildStageMap, List.foldl_append, List.foldl_cons]
    have hsg : ¬(sg.stage ≠ "" ∧ sg.duration ≠ 0) := by
      rcases h with h | h <;> simp [h]
    rw [if_neg hsg]

/-- C9 witness: the REM 0 segment yields the same map as its absence. -/
theorem C9_witness :
    (getSleepStages "u1" (2024, 3, 8)
        (.ok ⟨some [⟨none, none, none, some [⟨"REM", 0⟩, ⟨"DEEP", 120⟩]⟩]⟩)).1 =
      .ok [("deep", 120)]
    ∧ buildStageMap ([] ++ ⟨"REM", 0⟩ :: [⟨"DEEP", 120⟩]) =
        buildStageMap ([] ++ [⟨"DEEP", 120⟩]) :=
  ⟨(C9_falsy_segment_omitted "u1" (2024, 3, 8)).1,
   (C9_falsy_segment_omitted "u1" (2024, 3, 8)).2 [] [⟨"DEEP", 120⟩] ⟨"REM", 0⟩
     (Or.inr rfl)⟩

/-- C6.  getCurrentTempData reads current from currentState.level and target
from currentLevel, and derives heating as target > 0 and cooling as
target < 0: heating true and cooling false when the target is positive,
swapped when negative, both false at zero. -/
theorem C6_temperature_flags (userId : String) (resp : TempResp) :
    ∃ t : TempData,
      getCurrentTempData userId (.ok resp) = (.ok t, [.getTemperature userId])
      ∧ t.current = resp.currentStateLevel
      ∧ t.target = resp.currentLevel
      ∧ (0 < resp.currentLevel → t.heating = true ∧ t.cooling = false)
      ∧ (resp.currentLevel < 0 → t.heating = false ∧ t.cooling = true)
      ∧ (resp.currentLevel = 0 → t.heating = false ∧ t.cooling = false) := by
  refine ⟨_, rfl, rfl, rfl, fun h => ⟨?_, ?_⟩, fun h => ⟨?_, ?_⟩, fun h => ⟨?_, ?_⟩⟩ <;>
    simp only [decide_eq_true_eq, decide_eq_false_iff_not] <;> omega

/-- C6 witness at a positive target level. -/
theorem C6_witness :
    ∃ t : TempData,
      getCurrentTempData "u1" (.ok ⟨72, 10⟩) = (.ok t, [.getTemperature "u1"])
      ∧ t.heating = true ∧ t.cooling = false := by
  obtain ⟨t, h1, _, _, h4, _, _⟩ := C6_temperature_flags "u1" ⟨72, 10⟩
  exact ⟨t, h1, (h4 (by decide)).1, (h4 (by decide)).2⟩

/-- C8.  getSleepData without an end date queries the trends endpoint once,
with the fixed IANA timezone, per-session settings (include-main false,
include-all-sessions true, model-version v2), from set to the start date and
to set to the start date plus one calendar day (the source computes it by
adding 86400000 ms and reformatting; this equals the calendar successor), and
returns the days list of the response unchanged, defaulting to the empty list
when the field is absent. -/
theorem C8_default_end_date_plus_one_day (userId : String) (y m d : Nat)
    (h : validDate y m d) (reply : NetReply TrendsResp) :
    (getSleepData userId (y, m, d) none reply).2 =
      [VendorCall.getTrends userId
        { tz := "America/Los_Angeles", fromParam := fmtDate (y, m, d),
          toParam := fmtDate (nextDay y m d), includeMain := "false",
          includeAllSessions := "true", modelVersion := "v2" }]
    ∧ (∀ daysOpt, reply = .ok ⟨daysOpt⟩ →
        (getSleepData userId (y, m, d) none reply).1 = .ok (daysOpt.getD [])) := by
  have hms : (toEpochDays y m d * msPerDay + msPerDay) / msPerDay = toEpochDays y m d + 1 := by
    unfold msPerDay
    omega
  have hnext := next_epoch y m d h
  constructor
  · cases reply <;> simp [getSleepData, hms, hnext]
  · intro daysOpt hr
    subst hr
    simp [getSleepData]

/-- C8 witness: 2024-02-28 defaults the to parameter to 2024-02-29. -/
theorem C8_witness :
    (getSleepData "u1" (2024, 2, 28) none (.ok ⟨some []⟩)).2 =
      [VendorCall.getTrends "u1"
        { tz := "America/Los_Angeles", fromParam := "2024-02-28",
          toParam := "2024-02-29", includeMain := "false",
          includeAllSessions := "true", modelVersion := "v2" }]
    ∧ (getSleepData "u1" (2024, 2, 28) none (.ok ⟨some []⟩)).1 = .ok [] := by
  have h := C8_default_end_date_plus_one_day "u1" 2024 2 28 (by decide) (.ok ⟨some []⟩)
  refine ⟨h.1.trans ?_, h.2 (some []) rfl⟩
  decide

/-- C10.  With the configured default user id empty, getUsers fails with the
Not authenticated error and issues no resource request, even when the held
state comes from a successful login and the login response carried a nonempty
user id: authenticate sets this.userId from the configuration, not from the
response, so the truthiness guard in getUsers always rejects it. -/
theorem C10_empty_configured_userId_not_authenticated (cfg : AuthConfig)
    (hcfg : cfg.userId = "") (he : cfg.email ≠ "") (hp : cfg.password ≠ "")
    (tok u : String) (htok : tok ≠ "") {α : Type} (st : ClientState)
    (hst : strFalsy st.userId = true) (reply : NetReply α) :
    getUsers cfg (.ok tok u) st reply =
      (.error .notAuthenticated, [], ⟨some tok, some ""⟩) := by
  have hcfg2 : ¬(cfg.email = "" ∨ cfg.password = "") := by simp [he, hp]
  have hs2 : strFalsy (some ("" : String)) = true := rfl
  simp [getUsers, hst, authenticate, hcfg2, htok, hcfg, hs2]

/-- C10 witness: a post-login state (token held, user id set to the empty
configured value) and a login response carrying a nonempty user id. -/
theorem C10_witness :
    getUsers (α := Nat) ⟨"user@example.com", "pw", "cid", "csec", ""⟩
        (.ok "tok2" "vendorUser") ⟨some "tok1", some ""⟩ (.ok 3) =
      (.error .notAuthenticated, [], ⟨some "tok2", some ""⟩) :=
  C10_empty_configured_userId_not_authenticated ⟨"user@example.com", "pw", "cid", "csec", ""⟩
    rfl (by decide) (by decide) "tok2" "vendorUser" (by decide)
    ⟨some "tok1", some ""⟩ rfl (.ok 3)
